import Mathlib

set_option maxRecDepth 4000

/-!
Verification of the architecture-documentation pipeline
(`ProjectManagement/update_architecture_docs.py`): a shallow embedding of
the change-detecting store (`files` / `file_history` tables and the
`upsert_file` / `mark_deleted_files` operations), the metadata extractor
(complexity bucketing, layer classification, concurrency detection), the
violation detector, and the `--scan` driver loop, together with theorems
about them.

Timestamps (`datetime.now().isoformat()`) are opaque strings passed in
explicitly; SQLite rows are lists kept in insertion (rowid) order; the
autoincrement rowid is an explicit `next_id` counter.
-/

/-- Python's substring test `needle in hay`. -/
def pin (needle hay : String) : Bool :=
  decide (List.IsInfix needle.data hay.data)

/-- The `previous_values` / `new_values` JSON payload stored in a
`modified` history event: the fixed field subset captured by
`upsert_file` (layer, domain_entity, complexity, line_count). -/
structure Snapshot where
  layer : String
  domain_entity : String
  complexity : String
  line_count : Nat
deriving DecidableEq, Repr

/-- One metadata record produced by `SwiftFileScanner.analyze_file` (or
by the CSV import): the dict handed to `upsert_file`.  Optional fields
are the ones read with `.get` that the extractor may leave as `None`. -/
structure FileData where
  file_path : String
  layer : String
  domain_entity : String
  file_purpose : Option String
  key_pattern : Option String
  dependencies : Option String
  extends_conforms : Option String
  concurrency : String
  complexity : String
  notes : String
  file_size_bytes : Nat
  line_count : Nat
  last_modified : String
  file_hash : String
deriving DecidableEq, Repr

/-- One row of the `files` table.  `concurrency` is kept as the nullable
column it is in SQLite (`Option String`), although every write through
`upsert_file` stores a concrete string. -/
structure FileRec where
  id : Nat
  file_path : String
  layer : String
  domain_entity : String
  file_purpose : Option String
  key_pattern : Option String
  dependencies : Option String
  extends_conforms : Option String
  concurrency : Option String
  complexity : String
  notes : String
  file_size_bytes : Nat
  line_count : Nat
  last_modified : String
  file_hash : String
  first_seen : String
  last_scanned : String
  is_deleted : Bool
  deleted_at : Option String
deriving DecidableEq, Repr

/-- One row of the append-only `file_history` table. -/
structure HistoryEvent where
  file_id : Nat
  change_type : String
  file_path : String
  file_hash : Option String
  line_count : Option Nat
  previous_values : Option Snapshot
  new_values : Option Snapshot
  scan_run_id : Nat
deriving DecidableEq, Repr

/-- One row of the `violations` table. -/
structure ViolationRow where
  file_id : Nat
  violation_type : String
  severity : String
  description : String
  recommendation : String
  status : String
deriving DecidableEq, Repr

/-- A violation draft as built by the `_check_*` methods, before the
`INSERT` adds the `'open'` status. -/
structure Draft where
  file_id : Nat
  violation_type : String
  severity : String
  description : String
  recommendation : String
deriving DecidableEq, Repr

/-- The mutable SQLite state the claims are about: the `files` table,
the `file_history` log, the `violations` table, and the next rowid. -/
structure DBState where
  files : List FileRec
  history : List HistoryEvent
  violations : List ViolationRow
  next_id : Nat
deriving DecidableEq, Repr

/-- `ArchitectureDB.get_file_by_path`: `SELECT * FROM files WHERE
file_path = ?` followed by `fetchone()` — the first row in rowid order
whose path matches, with no filter on the soft-deletion flag. -/
def get_file_by_path (db : DBState) (file_path : String) : Option FileRec :=
  db.files.find? (fun r => r.file_path == file_path)

/-- The row inserted by the `created` branch of `upsert_file`:
`first_seen` and `last_scanned` are both set to now, the soft-deletion
columns take the schema defaults (not deleted). -/
def new_file_rec (file_data : FileData) (file_id : Nat) (now : String) : FileRec :=
  { id := file_id
    file_path := file_data.file_path
    layer := file_data.layer
    domain_entity := file_data.domain_entity
    file_purpose := file_data.file_purpose
    key_pattern := file_data.key_pattern
    dependencies := file_data.dependencies
    extends_conforms := file_data.extends_conforms
    concurrency := some file_data.concurrency
    complexity := file_data.complexity
    notes := file_data.notes
    file_size_bytes := file_data.file_size_bytes
    line_count := file_data.line_count
    last_modified := file_data.last_modified
    file_hash := file_data.file_hash
    first_seen := now
    last_scanned := now
    is_deleted := false
    deleted_at := none }

/-- The history row written by the `created` branch of `upsert_file`. -/
def created_event (file_data : FileData) (file_id scan_run_id : Nat) : HistoryEvent :=
  { file_id := file_id
    change_type := "created"
    file_path := file_data.file_path
    file_hash := some file_data.file_hash
    line_count := some file_data.line_count
    previous_values := none
    new_values := none
    scan_run_id := scan_run_id }

/-- The `UPDATE files SET ...` of the `modified` branch of
`upsert_file`: every tracked metadata column plus `last_scanned` is
overwritten; `file_path`, `first_seen`, `is_deleted` and `deleted_at`
are not in the column list. -/
def modified_update (file_data : FileData) (now : String) (r : FileRec) : FileRec :=
  { r with
      layer := file_data.layer
      domain_entity := file_data.domain_entity
      file_purpose := file_data.file_purpose
      key_pattern := file_data.key_pattern
      dependencies := file_data.dependencies
      extends_conforms := file_data.extends_conforms
      concurrency := some file_data.concurrency
      complexity := file_data.complexity
      notes := file_data.notes
      file_size_bytes := file_data.file_size_bytes
      line_count := file_data.line_count
      last_modified := file_data.last_modified
      file_hash := file_data.file_hash
      last_scanned := now }

/-- The history row written by the `modified` branch of `upsert_file`,
with the before/after snapshot of the fixed field subset. -/
def modified_event (file_data : FileData) (existing : FileRec) (scan_run_id : Nat) :
    HistoryEvent :=
  { file_id := existing.id
    change_type := "modified"
    file_path := file_data.file_path
    file_hash := some file_data.file_hash
    line_count := some file_data.line_count
    previous_values := some
      { layer := existing.layer
        domain_entity := existing.domain_entity
        complexity := existing.complexity
        line_count := existing.line_count }
    new_values := some
      { layer := file_data.layer
        domain_entity := file_data.domain_entity
        complexity := file_data.complexity
        line_count := file_data.line_count }
    scan_run_id := scan_run_id }

/-- `ArchitectureDB.upsert_file`.  Returns the new state together with
`(file_id, change_type)`.  No match on the path → insert plus a
`created` event; match with a differing fingerprint → update all
tracked columns of the rows with the matched id plus a `modified`
event; match with an equal fingerprint → `UPDATE files SET
last_scanned = ? WHERE id = ?` and no history row. -/
def upsert_file (db : DBState) (file_data : FileData) (scan_run_id : Nat)
    (now : String) : DBState × Nat × String :=
  match get_file_by_path db file_data.file_path with
  | none =>
      ({ db with
          files := db.files ++ [new_file_rec file_data db.next_id now]
          history := db.history ++ [created_event file_data db.next_id scan_run_id]
          next_id := db.next_id + 1 },
       db.next_id, "created")
  | some existing =>
      if existing.file_hash ≠ file_data.file_hash then
        ({ db with
            files := db.files.map (fun r =>
              if r.id == existing.id then modified_update file_data now r else r)
            history := db.history ++ [modified_event file_data existing scan_run_id] },
         existing.id, "modified")
      else
        ({ db with
            files := db.files.map (fun r =>
              if r.id == existing.id then { r with last_scanned := now } else r) },
         existing.id, "unchanged")

/-- The soft-deletion update of `mark_deleted_files`:
`UPDATE files SET is_deleted = 1, deleted_at = ? WHERE id = ?`. -/
def flag_deleted (now : String) (r : FileRec) : FileRec :=
  { r with is_deleted := true, deleted_at := some now }

/-- The `deleted` history event written by `mark_deleted_files`: only
`file_id`, `change_type`, `file_path` and `scan_run_id` are supplied. -/
def deleted_event (r : FileRec) (scan_run_id : Nat) : HistoryEvent :=
  { file_id := r.id
    change_type := "deleted"
    file_path := r.file_path
    file_hash := none
    line_count := none
    previous_values := none
    new_values := none
    scan_run_id := scan_run_id }

/-- `ArchitectureDB.mark_deleted_files`: select the non-deleted rows
whose path is not among `scanned_paths` (the cursor is materialised by
`fetchall()` before any update; SQLite accepts an empty `NOT IN ()`
list, which selects every non-deleted row), then flag each selected row
by id and append one `deleted` event per row; returns the number of
rows selected. -/
def mark_deleted_files (db : DBState) (scanned_paths : List String)
    (scan_run_id : Nat) (now : String) : DBState × Nat :=
  let deleted_files := db.files.filter
    (fun r => !(scanned_paths.contains r.file_path) && !r.is_deleted)
  let files' := deleted_files.foldl
    (fun fs f => fs.map (fun r => if r.id == f.id then flag_deleted now r else r))
    db.files
  let history' := db.history ++ deleted_files.map (fun f => deleted_event f scan_run_id)
  ({ db with files := files', history := history' }, deleted_files.length)

/-- `SIMPLE_THRESHOLD` (lines). -/
def SIMPLE_THRESHOLD : Nat := 150

/-- `MEDIUM_THRESHOLD` (lines). -/
def MEDIUM_THRESHOLD : Nat := 400

/-- The non-blank line count of `analyze_file`:
`len([l for l in content.split('\n') if l.strip()])`. -/
def line_count_of (content : String) : Nat :=
  ((content.splitOn "\n").filter (fun l => !(l.trim == ""))).length

/-- The complexity bucketing of `analyze_file`: compare the non-blank
line count against the two fixed thresholds. -/
def complexity_of (line_count : Nat) : String :=
  if line_count < SIMPLE_THRESHOLD then "Simple"
  else if line_count < MEDIUM_THRESHOLD then "Medium"
  else "Complex"

/-- `SwiftFileScanner._determine_layer`: the ordered chain of
path-substring predicates, first match wins, `"Unknown"` otherwise. -/
def determine_layer (path_str : String) : String :=
  if pin "Models/Abstractions" path_str then "Model-Abstraction"
  else if pin "Models/Basics" path_str then "Model-Basic"
  else if pin "Models/Composits" path_str then "Model-Composit"
  else if pin "Models/DataTypes" path_str then "Model-DataType"
  else if pin "Models/SemanticTypes" path_str then "Model-Semantic"
  else if pin "Models/Deduplication" path_str then "Model-Deduplication"
  else if pin "Database" path_str then "Database"
  else if pin "Repositories/Core" path_str then "Repository-Core"
  else if pin "Repositories" path_str then "Repository"
  else if pin "Coordinators/FormData" path_str then "Coordinator-FormData"
  else if pin "Coordinators" path_str then "Coordinator"
  else if pin "Services/Progress" path_str then "Service-Progress"
  else if pin "Services/Validation" path_str then "Service-Validation"
  else if pin "Services/Embedding" path_str then "Service-Embedding"
  else if pin "Services/Semantic" path_str then "Service-Semantic"
  else if pin "Services/Deduplication" path_str then "Service-Deduplication"
  else if pin "Services/HealthKit" path_str then "Service-HealthKit"
  else if pin "Services/FoundationModels" path_str then "Service-FoundationModels"
  else if pin "Services/ImportExport" path_str then "Service-ImportExport"
  else if pin "Services" path_str then "Service-Other"
  else if pin "ViewModels/FormViewModels" path_str then "ViewModel-Form"
  else if pin "ViewModels/ListViewModels" path_str then "ViewModel-List"
  else if pin "ViewModels/LLMViewModels" path_str then "ViewModel-LLM"
  else if pin "ViewModels" path_str then "ViewModel-Utility"
  else if pin "Views/ListViews" path_str then "View-List"
  else if pin "Views/FormViews" path_str then "View-Form"
  else if pin "Views/RowViews" path_str then "View-Row"
  else if pin "Views/Components" path_str then "View-Component"
  else if pin "Views/Dashboard" path_str then "View-Dashboard"
  else if pin "Views/Debug" path_str then "View-Debug"
  else if pin "Views/Analytics" path_str then "View-Analytics"
  else if pin "Views/Health" path_str then "View-Health"
  else if pin "Views/LLM" path_str then "View-LLM"
  else if pin "Views/CSV" path_str then "View-CSV"
  else if pin "Views/Templates" path_str then "View-Template"
  else "Unknown"

/-- `SwiftFileScanner._detect_concurrency`, with the two local booleans
(`has_sendable`, `has_mainactor`) inlined. -/
def detect_concurrency (content : String) : String :=
  if (pin ": Sendable" content || pin "@unchecked Sendable" content)
      && pin "@MainActor" content then "Sendable + @MainActor"
  else if pin "@unchecked Sendable" content then "@unchecked Sendable"
  else if pin ": Sendable" content || pin "@unchecked Sendable" content then "Sendable"
  else if pin "@MainActor" content then "@MainActor"
  else "None"

/-- SQLite `LIKE` folds ASCII upper-case letters to lower case before
comparing (its default, `case_sensitive_like` off): the fold for one
character. -/
def lower_char (c : Char) : Char :=
  if 'A' ≤ c && c ≤ 'Z' then Char.ofNat (c.toNat + 32) else c

/-- The ASCII case fold SQLite's default `LIKE` applies to both the
pattern and the column value. -/
def ascii_lower (s : String) : String :=
  ⟨s.data.map lower_char⟩

/-- SQL `col LIKE '%needle%'` on a non-NULL value: containment up to
ASCII case. -/
def like_contains (needle hay : String) : Bool :=
  pin (ascii_lower needle) (ascii_lower hay)

/-- SQL `col NOT LIKE '%needle%'` on a nullable text column, with
SQLite's three-valued logic (a NULL column yields no match, so the row
is not selected) and its default ASCII case-insensitive comparison. -/
def not_like (col : Option String) (needle : String) : Bool :=
  match col with
  | none => false
  | some s => !(like_contains needle s)

/-- The draft built by `_check_repository_baserepository` for one row. -/
def baserepo_draft (r : FileRec) : Draft :=
  { file_id := r.id
    violation_type := "missing_baserepository"
    severity := "high"
    description := "Repository " ++ r.file_path ++ " does not extend BaseRepository"
    recommendation := "Extend BaseRepository<DataType> for consistency with canonical pattern" }

/-- `ViolationDetector._check_repository_baserepository`. -/
def check_repository_baserepository (files : List FileRec) : List Draft :=
  (files.filter (fun r =>
      r.layer == "Repository" && r.is_deleted == false
        && (match r.extends_conforms with
            | none => true
            | some s => !(like_contains "BaseRepository" s))
        && !(like_contains "/Core/" r.file_path))).map baserepo_draft

/-- `ViolationDetector._check_raw_sql_patterns`: stubbed out in the
source ("For now, return empty list"). -/
def check_raw_sql_patterns : List Draft := []

/-- The draft built by `_check_missing_sendable` for one row. -/
def sendable_draft (r : FileRec) : Draft :=
  { file_id := r.id
    violation_type := "missing_sendable"
    severity := "medium"
    description := r.layer ++ " " ++ r.file_path ++ " is not Sendable"
    recommendation := "Add Sendable conformance for Swift 6 concurrency safety" }

/-- `ViolationDetector._check_missing_sendable`. -/
def check_missing_sendable (files : List FileRec) : List Draft :=
  (files.filter (fun r =>
      (r.layer == "Coordinator" || r.layer == "Repository"
        || r.layer == "Service-Progress" || r.layer == "Service-Validation")
        && r.is_deleted == false
        && not_like r.concurrency "Sendable")).map sendable_draft

/-- SQL `col LIKE 'needle%'`: the column starts with the needle, up to
SQLite's default ASCII case fold. -/
def like_starts (needle hay : String) : Bool :=
  decide (List.IsPrefix (ascii_lower needle).data (ascii_lower hay).data)

/-- The draft built by `_check_missing_mainactor` for one row. -/
def mainactor_draft (r : FileRec) : Draft :=
  { file_id := r.id
    violation_type := "missing_mainactor"
    severity := "high"
    description := "ViewModel " ++ r.file_path ++ " is missing @MainActor"
    recommendation := "Add @MainActor to ensure UI updates on main thread" }

/-- `ViolationDetector._check_missing_mainactor`. -/
def check_missing_mainactor (files : List FileRec) : List Draft :=
  (files.filter (fun r =>
      like_starts "ViewModel" r.layer && r.is_deleted == false
        && not_like r.concurrency "@MainActor")).map mainactor_draft

/-- The row a draft becomes on insertion: `status` is set to `'open'`. -/
def draft_to_row (d : Draft) : ViolationRow :=
  { file_id := d.file_id
    violation_type := d.violation_type
    severity := d.severity
    description := d.description
    recommendation := d.recommendation
    status := "open" }

/-- Whether some row of the table already carries this
`(file_id, violation_type)` pair. -/
def pair_present (tbl : List ViolationRow) (i : Nat) (t : String) : Bool :=
  tbl.any (fun w => w.file_id == i && w.violation_type == t)

/-- The number of rows of the table carrying this
`(file_id, violation_type)` pair. -/
def pair_count (tbl : List ViolationRow) (i : Nat) (t : String) : Nat :=
  tbl.countP (fun w => w.file_id == i && w.violation_type == t)

/-- Modelled from the spec: the `violations` table definition lives in
`schema.sql`, which is not part of the repository.  The spec's invariant
"at most one open violation per (file id, violation kind) pair —
re-detection is a no-op, not a duplicate insert" together with the
source's `INSERT OR IGNORE INTO violations` means the table carries a
uniqueness constraint on `(file_id, violation_type)`: an insert whose
pair already exists in the table is silently ignored, otherwise the
draft is inserted with status `'open'`. -/
def save_violation (tbl : List ViolationRow) (d : Draft) : List ViolationRow :=
  if pair_present tbl d.file_id d.violation_type then tbl
  else tbl ++ [draft_to_row d]

/-- The draft list built by `check_all_violations`: the four checks in
source order. -/
def all_drafts (files : List FileRec) : List Draft :=
  check_repository_baserepository files
    ++ check_raw_sql_patterns
    ++ check_missing_sendable files
    ++ check_missing_mainactor files

/-- `ViolationDetector.check_all_violations`: collect the drafts, then
`INSERT OR IGNORE` each into the `violations` table; returns the draft
list (the value the caller prints). -/
def check_all_violations (db : DBState) : DBState × List Draft :=
  ({ db with violations := (all_drafts db.files).foldl save_violation db.violations },
   all_drafts db.files)

/-- The spec's violation invariant: no two open rows of the table share
a `(file_id, violation_type)` pair. -/
def at_most_one_open (tbl : List ViolationRow) : Prop :=
  tbl.Pairwise (fun v w =>
    v.status = "open" → w.status = "open" →
      ¬(v.file_id = w.file_id ∧ v.violation_type = w.violation_type))

/-- The counters dict built by `main` for a `--scan` run. -/
structure ScanStats where
  scanned : Nat
  created : Nat
  modified : Nat
  deleted : Nat
  errors : Nat
deriving DecidableEq, Repr

/-- The counter columns `complete_scan_run` writes into `scan_runs`. -/
structure ScanRunRow where
  files_scanned : Nat
  files_created : Nat
  files_modified : Nat
  files_deleted : Nat
  errors_encountered : Nat
deriving DecidableEq, Repr

/-- `ArchitectureDB.complete_scan_run`: copy the caller's counters into
the run row (`stats.get(key, 0)` on a dict whose keys `main` always
populates). -/
def complete_scan_run (stats : ScanStats) : ScanRunRow :=
  { files_scanned := stats.scanned
    files_created := stats.created
    files_modified := stats.modified
    files_deleted := stats.deleted
    errors_encountered := stats.errors }

/-- `SwiftFileScanner.scan_all_files`.  Per-file analysis is the
`try`-protected call to `analyze_file`; an input is either its metadata
(`Except.ok`) or the message of the exception it raised
(`Except.error`).  The `except` arm only prints the error and the loop
moves on to the next file, so failed files are silently dropped from
the result. -/
def scan_collect_step (results : List FileData) (a : Except String FileData) :
    List FileData :=
  match a with
  | Except.ok metadata => results ++ [metadata]
  | Except.error _ => results

/-- The loop of `scan_all_files` over the per-file attempts. -/
def scan_all_files (attempts : List (Except String FileData)) : List FileData :=
  attempts.foldl scan_collect_step []

/-- The number of files whose extraction failed. -/
def failed_extractions (attempts : List (Except String FileData)) : Nat :=
  attempts.countP (fun a =>
    match a with
    | Except.ok _ => false
    | Except.error _ => true)

/-- One iteration of the `--scan` loop in `main`: upsert the record,
bump `scanned` and the matching outcome counter (the `errors` key is
never incremented anywhere in `main`), and remember the scanned path. -/
def scan_step (scan_run_id : Nat) (now : String)
    (acc : DBState × ScanStats × List String) (file_data : FileData) :
    DBState × ScanStats × List String :=
  let r := upsert_file acc.1 file_data scan_run_id now
  (r.1,
   { acc.2.1 with
       scanned := acc.2.1.scanned + 1
       created := if r.2.2 == "created" then acc.2.1.created + 1 else acc.2.1.created
       modified := if r.2.2 == "modified" then acc.2.1.modified + 1 else acc.2.1.modified },
   acc.2.2 ++ [file_data.file_path])

/-- The `--scan` branch of `main`: run the scanner, upsert every
returned record with counters starting at zero, then finalize
deletions; the resulting counters are what `complete_scan_run`
receives. -/
def run_scan (db : DBState) (attempts : List (Except String FileData))
    (scan_run_id : Nat) (now : String) : DBState × ScanStats :=
  let files := scan_all_files attempts
  let folded := files.foldl (scan_step scan_run_id now) (db, ⟨0, 0, 0, 0, 0⟩, [])
  let md := mark_deleted_files folded.1 folded.2.2 scan_run_id now
  (md.1, { folded.2.1 with deleted := md.2 })

/-- A generic stored record used by the concrete witness states below:
a coordinator with 200 non-blank lines and no concurrency marker
(`_detect_concurrency` returned `"None"`). -/
def sample_rec (i : Nat) (path hash : String) (del : Bool) : FileRec :=
  { id := i
    file_path := path
    layer := "Coordinator"
    domain_entity := "Goal"
    file_purpose := none
    key_pattern := none
    dependencies := none
    extends_conforms := none
    concurrency := some "None"
    complexity := "Medium"
    notes := ""
    file_size_bytes := 10
    line_count := 200
    last_modified := "t0"
    file_hash := hash
    first_seen := "t0"
    last_scanned := "t0"
    is_deleted := del
    deleted_at := if del then some "t0" else none }

/-- A generic extractor output used by the concrete witness states. -/
def sample_data (path hash : String) : FileData :=
  { file_path := path
    layer := "Coordinator"
    domain_entity := "Goal"
    file_purpose := none
    key_pattern := none
    dependencies := none
    extends_conforms := none
    concurrency := "None"
    complexity := "Medium"
    notes := ""
    file_size_bytes := 10
    line_count := 200
    last_modified := "t1"
    file_hash := hash }

/-- Witness state for the unchanged-upsert claim. -/
def c1_db : DBState := ⟨[sample_rec 1 "A.swift" "h1" false], [], [], 2⟩

/-- Witness state for the deletion-finalisation claim: one live record
that was rescanned, one live record that was not, one record already
soft-deleted. -/
def c2_db : DBState :=
  ⟨[sample_rec 1 "A.swift" "hA" false,
    sample_rec 2 "B.swift" "hB" false,
    sample_rec 3 "C.swift" "hC" true], [], [], 4⟩

/-- Witness state for the rule-idempotence claim. -/
def c3_db : DBState := ⟨[sample_rec 1 "B.swift" "hB" false], [], [], 2⟩

/-- A successfully analysed file for the error-counter claim. -/
def c4_good : FileData := sample_data "Good.swift" "hG"

/-- The failing input for the error-counter claim: analysis of the
first file raises, the second succeeds. -/
def c4_attempts : List (Except String FileData) :=
  [Except.error "invalid byte sequence", Except.ok c4_good]

/-- An empty store for the error-counter claim. -/
def c4_db : DBState := ⟨[], [], [], 1⟩

/-- Witness state for the reappearing-deleted-path claim: the only
record with path `B.swift` is soft-deleted. -/
def c5_db : DBState := ⟨[sample_rec 2 "B.swift" "hOld" true], [], [], 3⟩

/-- The rescanned metadata for the reappearing path, with new content. -/
def c5_data : FileData := sample_data "B.swift" "hNew"

/-- The counterexample path for the layer-classification claim: it
contains `Repositories/Core`, but the `Database` predicate is tested
earlier in the chain and also matches. -/
def c7_cx_path : String :=
  "swift/Sources/Database/Repositories/Core/UserRepository.swift"

/-- A repository-core path matched by no earlier predicate. -/
def c7_rc_path : String :=
  "swift/Sources/GoalTracker/Repositories/Core/BaseRepository.swift"

/-- A form-data coordinator path matched by no earlier predicate. -/
def c7_cf_path : String :=
  "swift/Sources/GoalTracker/Coordinators/FormData/GoalFormCoordinator.swift"

/-- A form view-model path matched by no earlier predicate. -/
def c7_vmf_path : String :=
  "swift/Sources/GoalTracker/ViewModels/FormViewModels/GoalFormViewModel.swift"

/-- A path matched by no predicate at all. -/
def c7_unknown_path : String := "swift/Sources/GoalTracker/App/MainApp.swift"

/-- Witness state for the missing-Sendable claim: the coordinator B of
the spec's end-to-end scenario (200 non-blank lines, concurrency label
`"None"`). -/
def c8_db : DBState := ⟨[sample_rec 1 "B.swift" "hB" false], [], [], 2⟩

/-- Counterexample state for the missing-Sendable claim: a coordinator
whose concurrency column holds `"SENDABLE"` (reachable through the CSV
import, which stores the `Concurrency` column verbatim).  The label
does not contain `"Sendable"` literally, but SQLite's ASCII
case-insensitive `NOT LIKE` still rejects the row. -/
def c8_cx_db : DBState :=
  ⟨[{ sample_rec 1 "B.swift" "hB" false with concurrency := some "SENDABLE" }],
   [], [], 2⟩

/-- Witness content for the concurrency-detection claim: `@MainActor`
plus `@unchecked Sendable` as the only Sendable marker. -/
def c10_content : String :=
  "@MainActor\nfinal class AppCoordinator {}\n// conforms via @unchecked Sendable"

/-! ### Substring helper lemmas -/

lemma pin_trans {a b c : String} (hab : pin a b = true) (hbc : pin b c = true) :
    pin a c = true := by
  simp only [pin, decide_eq_true_eq] at hab hbc ⊢
  exact hab.trans hbc

lemma pin_false_of_parent {a b c : String} (hba : pin b a = true)
    (h : pin b c = false) : pin a c = false := by
  cases hac : pin a c
  · rfl
  · exact absurd (pin_trans hba hac) (by simp [h])

/-! ### C6: complexity bucketing -/

/-- C6: the complexity bucket is determined by the non-blank line count
against the fixed thresholds 150 and 400 — below 150 is `Simple`, from
150 up to (but excluding) 400 is `Medium`, from 400 on is `Complex`;
in particular 149 lines are `Simple`, 150 and 399 are `Medium`, and
400 is `Complex`. -/
theorem complexity_bucket_spec :
    (∀ n : Nat,
      (complexity_of n = "Simple" ↔ n < 150) ∧
      (complexity_of n = "Medium" ↔ 150 ≤ n ∧ n < 400) ∧
      (complexity_of n = "Complex" ↔ 400 ≤ n)) ∧
    complexity_of 149 = "Simple" ∧ complexity_of 150 = "Medium" ∧
    complexity_of 399 = "Medium" ∧ complexity_of 400 = "Complex" := by
  have key : ∀ n : Nat,
      (complexity_of n = "Simple" ↔ n < 150) ∧
      (complexity_of n = "Medium" ↔ 150 ≤ n ∧ n < 400) ∧
      (complexity_of n = "Complex" ↔ 400 ≤ n) := by
    intro n
    rcases Nat.lt_or_ge n 150 with h1 | h1
    · have e : complexity_of n = "Simple" := by
        simp [complexity_of, SIMPLE_THRESHOLD, h1]
      rw [e]
      exact ⟨⟨fun _ => h1, fun _ => rfl⟩,
        ⟨fun h => absurd h (by decide), fun h => absurd h1 (by omega)⟩,
        ⟨fun h => absurd h (by decide), fun h => absurd h1 (by omega)⟩⟩
    · rcases Nat.lt_or_ge n 400 with h2 | h2
      · have e : complexity_of n = "Medium" := by
          simp [complexity_of, SIMPLE_THRESHOLD, MEDIUM_THRESHOLD, Nat.not_lt.mpr h1, h2]
        rw [e]
        exact ⟨⟨fun h => absurd h (by decide), fun h => absurd h1 (by omega)⟩,
          ⟨fun _ => ⟨h1, h2⟩, fun _ => rfl⟩,
          ⟨fun h => absurd h (by decide), fun h => absurd h2 (by omega)⟩⟩
      · have e : complexity_of n = "Complex" := by
          simp [complexity_of, SIMPLE_THRESHOLD, MEDIUM_THRESHOLD,
            Nat.not_lt.mpr h1, Nat.not_lt.mpr h2]
        rw [e]
        exact ⟨⟨fun h => absurd h (by decide), fun h => absurd h2 (by omega)⟩,
          ⟨fun h => absurd h (by decide), fun h => absurd h2 (by omega)⟩,
          ⟨fun _ => h2, fun _ => rfl⟩⟩
  exact ⟨key, rfl, rfl, rfl, rfl⟩

/-! ### C10: concurrency detection -/

/-- C10: `_detect_concurrency` always yields one of the five labels;
content containing `@MainActor` together with any Sendable marker —
even when the only Sendable marker is `@unchecked Sendable` — yields
the combined label, so `@unchecked Sendable` is never returned for
content that also contains `@MainActor`. -/
theorem detect_concurrency_spec :
    (∀ content : String,
      detect_concurrency content = "Sendable + @MainActor" ∨
      detect_concurrency content = "@unchecked Sendable" ∨
      detect_concurrency content = "Sendable" ∨
      detect_concurrency content = "@MainActor" ∨
      detect_concurrency content = "None") ∧
    (∀ content : String, pin "@MainActor" content = true →
      (pin ": Sendable" content = true ∨ pin "@unchecked Sendable" content = true) →
      detect_concurrency content = "Sendable + @MainActor") ∧
    (∀ content : String, pin "@MainActor" content = true →
      detect_concurrency content ≠ "@unchecked Sendable") := by
  refine ⟨fun content => ?_, fun content hma hs => ?_, fun content hma => ?_⟩
  · unfold detect_concurrency
    split_ifs <;>
      first
        | exact Or.inl rfl
        | exact Or.inr (Or.inl rfl)
        | exact Or.inr (Or.inr (Or.inl rfl))
        | exact Or.inr (Or.inr (Or.inr (Or.inl rfl)))
        | exact Or.inr (Or.inr (Or.inr (Or.inr rfl)))
  · have hs' : (pin ": Sendable" content || pin "@unchecked Sendable" content) = true := by
      rcases hs with h | h <;> simp [h]
    simp [detect_concurrency, hs', hma]
  · unfold detect_concurrency
    split_ifs with h1 h2 h3
    · decide
    · exact absurd (by simp [h2, hma]) h1
    · decide
    · decide

/-- Concrete grounding for C10: content whose only Sendable marker is
`@unchecked Sendable`, together with `@MainActor`, combines. -/
theorem detect_concurrency_witness :
    pin "@MainActor" c10_content = true ∧
    pin ": Sendable" c10_content = false ∧
    pin "@unchecked Sendable" c10_content = true ∧
    detect_concurrency c10_content = "Sendable + @MainActor" :=
  ⟨by decide, by decide, by decide,
    detect_concurrency_spec.2.1 c10_content (by decide) (Or.inr (by decide))⟩


/-! ### C7: layer classification -/

lemma bne_true {b : Bool} (h : b = false) : ¬ b = true := by simp [h]

/-- C7 counterexample: the claim says any path containing
`Repositories/Core` is classified `Repository-Core`, but the `Database`
predicate is tested earlier in the chain, so a path containing both is
classified `Database`. -/
theorem determine_layer_counterexample :
    pin "Repositories/Core" c7_cx_path = true ∧
    determine_layer c7_cx_path = "Database" ∧
    determine_layer c7_cx_path ≠ "Repository-Core" :=
  ⟨by decide, by decide, by decide⟩

/-- C7 (amended): `_determine_layer` tests its path-substring
predicates in a fixed order with first match winning and returns
`Unknown` when none matches; each sub-category fragment is tested
before its parent fragment, so a path containing `Repositories/Core`
is never classified `Repository`, one containing
`Coordinators/FormData` never `Coordinator`, and one containing
`ViewModels/FormViewModels` never `ViewModel-Utility`; the sub-category
label itself is returned provided no fragment tested earlier in the
chain occurs in the path. -/
theorem determine_layer_spec (path : String) :
    (pin "Repositories/Core" path = true → determine_layer path ≠ "Repository") ∧
    (pin "Coordinators/FormData" path = true → determine_layer path ≠ "Coordinator") ∧
    (pin "ViewModels/FormViewModels" path = true →
      determine_layer path ≠ "ViewModel-Utility") ∧
    (pin "Models/Abstractions" path = false → pin "Models/Basics" path = false →
      pin "Models/Composits" path = false → pin "Models/DataTypes" path = false →
      pin "Models/SemanticTypes" path = false → pin "Models/Deduplication" path = false →
      pin "Database" path = false → pin "Repositories/Core" path = true →
      determine_layer path = "Repository-Core") ∧
    (pin "Models/Abstractions" path = false → pin "Models/Basics" path = false →
      pin "Models/Composits" path = false → pin "Models/DataTypes" path = false →
      pin "Models/SemanticTypes" path = false → pin "Models/Deduplication" path = false →
      pin "Database" path = false → pin "Repositories" path = false →
      pin "Coordinators/FormData" path = true →
      determine_layer path = "Coordinator-FormData") ∧
    (pin "Models/Abstractions" path = false → pin "Models/Basics" path = false →
      pin "Models/Composits" path = false → pin "Models/DataTypes" path = false →
      pin "Models/SemanticTypes" path = false → pin "Models/Deduplication" path = false →
      pin "Database" path = false → pin "Repositories" path = false →
      pin "Coordinators" path = false → pin "Services" path = false →
      pin "ViewModels/FormViewModels" path = true →
      determine_layer path = "ViewModel-Form") ∧
    (pin "Models" path = false → pin "Database" path = false →
      pin "Repositories" path = false → pin "Coordinators" path = false →
      pin "Services" path = false → pin "Views" path = false →
      determine_layer path = "Unknown") := by
  refine ⟨?_, ?_, ?_, ?_, ?_, ?_, ?_⟩
  ·
    intro h
    unfold determine_layer
    by_cases c1 : pin "Models/Abstractions" path = true
    · rw [if_pos c1]; decide
    rw [if_neg c1]
    by_cases c2 : pin "Models/Basics" path = true
    · rw [if_pos c2]; decide
    rw [if_neg c2]
    by_cases c3 : pin "Models/Composits" path = true
    · rw [if_pos c3]; decide
    rw [if_neg c3]
    by_cases c4 : pin "Models/DataTypes" path = true
    · rw [if_pos c4]; decide
    rw [if_neg c4]
    by_cases c5 : pin "Models/SemanticTypes" path = true
    · rw [if_pos c5]; decide
    rw [if_neg c5]
    by_cases c6 : pin "Models/Deduplication" path = true
    · rw [if_pos c6]; decide
    rw [if_neg c6]
    by_cases c7 : pin "Database" path = true
    · rw [if_pos c7]; decide
    rw [if_neg c7]
    rw [if_pos h]
    decide
  ·
    intro h
    unfold determine_layer
    by_cases c1 : pin "Models/Abstractions" path = true
    · rw [if_pos c1]; decide
    rw [if_neg c1]
    by_cases c2 : pin "Models/Basics" path = true
    · rw [if_pos c2]; decide
    rw [if_neg c2]
    by_cases c3 : pin "Models/Composits" path = true
    · rw [if_pos c3]; decide
    rw [if_neg c3]
    by_cases c4 : pin "Models/DataTypes" path = true
    · rw [if_pos c4]; decide
    rw [if_neg c4]
    by_cases c5 : pin "Models/SemanticTypes" path = true
    · rw [if_pos c5]; decide
    rw [if_neg c5]
    by_cases c6 : pin "Models/Deduplication" path = true
    · rw [if_pos c6]; decide
    rw [if_neg c6]
    by_cases c7 : pin "Database" path = true
    · rw [if_pos c7]; decide
    rw [if_neg c7]
    by_cases c8 : pin "Repositories/Core" path = true
    · rw [if_pos c8]; decide
    rw [if_neg c8]
    by_cases c9 : pin "Repositories" path = true
    · rw [if_pos c9]; decide
    rw [if_neg c9]
    rw [if_pos h]
    decide
  ·
    intro h
    unfold determine_layer
    by_cases c1 : pin "Models/Abstractions" path = true
    · rw [if_pos c1]; decide
    rw [if_neg c1]
    by_cases c2 : pin "Models/Basics" path = true
    · rw [if_pos c2]; decide
    rw [if_neg c2]
    by_cases c3 : pin "Models/Composits" path = true
    · rw [if_pos c3]; decide
    rw [if_neg c3]
    by_cases c4 : pin "Models/DataTypes" path = true
    · rw [if_pos c4]; decide
    rw [if_neg c4]
    by_cases c5 : pin "Models/SemanticTypes" path = true
    · rw [if_pos c5]; decide
    rw [if_neg c5]
    by_cases c6 : pin "Models/Deduplication" path = true
    · rw [if_pos c6]; decide
    rw [if_neg c6]
    by_cases c7 : pin "Database" path = true
    · rw [if_pos c7]; decide
    rw [if_neg c7]
    by_cases c8 : pin "Repositories/Core" path = true
    · rw [if_pos c8]; decide
    rw [if_neg c8]
    by_cases c9 : pin "Repositories" path = true
    · rw [if_pos c9]; decide
    rw [if_neg c9]
    by_cases c10 : pin "Coordinators/FormData" path = true
    · rw [if_pos c10]; decide
    rw [if_neg c10]
    by_cases c11 : pin "Coordinators" path = true
    · rw [if_pos c11]; decide
    rw [if_neg c11]
    by_cases c12 : pin "Services/Progress" path = true
    · rw [if_pos c12]; decide
    rw [if_neg c12]
    by_cases c13 : pin "Services/Validation" path = true
    · rw [if_pos c13]; decide
    rw [if_neg c13]
    by_cases c14 : pin "Services/Embedding" path = true
    · rw [if_pos c14]; decide
    rw [if_neg c14]
    by_cases c15 : pin "Services/Semantic" path = true
    · rw [if_pos c15]; decide
    rw [if_neg c15]
    by_cases c16 : pin "Services/Deduplication" path = true
    · rw [if_pos c16]; decide
    rw [if_neg c16]
    by_cases c17 : pin "Services/HealthKit" path = true
    · rw [if_pos c17]; decide
    rw [if_neg c17]
    by_cases c18 : pin "Services/FoundationModels" path = true
    · rw [if_pos c18]; decide
    rw [if_neg c18]
    by_cases c19 : pin "Services/ImportExport" path = true
    · rw [if_pos c19]; decide
    rw [if_neg c19]
    by_cases c20 : pin "Services" path = true
    · rw [if_pos c20]; decide
    rw [if_neg c20]
    rw [if_pos h]
    decide
  · intro h1 h2 h3 h4 h5 h6 h7 h8
    unfold determine_layer
    rw [if_neg (bne_true h1), if_neg (bne_true h2), if_neg (bne_true h3),
      if_neg (bne_true h4), if_neg (bne_true h5), if_neg (bne_true h6),
      if_neg (bne_true h7), if_pos h8]
  · intro h1 h2 h3 h4 h5 h6 h7 h8 h9
    have h8a : pin "Repositories/Core" path = false :=
      pin_false_of_parent (by decide) h8
    unfold determine_layer
    rw [if_neg (bne_true h1), if_neg (bne_true h2), if_neg (bne_true h3),
      if_neg (bne_true h4), if_neg (bne_true h5), if_neg (bne_true h6),
      if_neg (bne_true h7), if_neg (bne_true h8a), if_neg (bne_true h8),
      if_pos h9]
  · intro h1 h2 h3 h4 h5 h6 h7 h8 h9 h10 h11
    have h8a : pin "Repositories/Core" path = false :=
      pin_false_of_parent (by decide) h8
    have h9a : pin "Coordinators/FormData" path = false :=
      pin_false_of_parent (by decide) h9
    have s1 : pin "Services/Progress" path = false :=
      pin_false_of_parent (by decide) h10
    have s2 : pin "Services/Validation" path = false :=
      pin_false_of_parent (by decide) h10
    have s3 : pin "Services/Embedding" path = false :=
      pin_false_of_parent (by decide) h10
    have s4 : pin "Services/Semantic" path = false :=
      pin_false_of_parent (by decide) h10
    have s5 : pin "Services/Deduplication" path = false :=
      pin_false_of_parent (by decide) h10
    have s6 : pin "Services/HealthKit" path = false :=
      pin_false_of_parent (by decide) h10
    have s7 : pin "Services/FoundationModels" path = false :=
      pin_false_of_parent (by decide) h10
    have s8 : pin "Services/ImportExport" path = false :=
      pin_false_of_parent (by decide) h10
    unfold determine_layer
    rw [if_neg (bne_true h1), if_neg (bne_true h2), if_neg (bne_true h3),
      if_neg (bne_true h4), if_neg (bne_true h5), if_neg (bne_true h6),
      if_neg (bne_true h7), if_neg (bne_true h8a), if_neg (bne_true h8),
      if_neg (bne_true h9a), if_neg (bne_true h9),
      if_neg (bne_true s1), if_neg (bne_true s2), if_neg (bne_true s3),
      if_neg (bne_true s4), if_neg (bne_true s5), if_neg (bne_true s6),
      if_neg (bne_true s7), if_neg (bne_true s8), if_neg (bne_true h10),
      if_pos h11]
  · intro hm hdb hrep hco hsv hvw
    have d1 : pin "Models/Abstractions" path = false := pin_false_of_parent (by decide) hm
    have d2 : pin "Models/Basics" path = false := pin_false_of_parent (by decide) hm
    have d3 : pin "Models/Composits" path = false := pin_false_of_parent (by decide) hm
    have d4 : pin "Models/DataTypes" path = false := pin_false_of_parent (by decide) hm
    have d5 : pin "Models/SemanticTypes" path = false := pin_false_of_parent (by decide) hm
    have d6 : pin "Models/Deduplication" path = false := pin_false_of_parent (by decide) hm
    have d7 : pin "Repositories/Core" path = false := pin_false_of_parent (by decide) hrep
    have d8 : pin "Coordinators/FormData" path = false := pin_false_of_parent (by decide) hco
    have d9 : pin "Services/Progress" path = false := pin_false_of_parent (by decide) hsv
    have d10 : pin "Services/Validation" path = false := pin_false_of_parent (by decide) hsv
    have d11 : pin "Services/Embedding" path = false := pin_false_of_parent (by decide) hsv
    have d12 : pin "Services/Semantic" path = false := pin_false_of_parent (by decide) hsv
    have d13 : pin "Services/Deduplication" path = false := pin_false_of_parent (by decide) hsv
    have d14 : pin "Services/HealthKit" path = false := pin_false_of_parent (by decide) hsv
    have d15 : pin "Services/FoundationModels" path = false := pin_false_of_parent (by decide) hsv
    have d16 : pin "Services/ImportExport" path = false := pin_false_of_parent (by decide) hsv
    have d17 : pin "ViewModels/FormViewModels" path = false := pin_false_of_parent (by decide) hm
    have d18 : pin "ViewModels/ListViewModels" path = false := pin_false_of_parent (by decide) hm
    have d19 : pin "ViewModels/LLMViewModels" path = false := pin_false_of_parent (by decide) hm
    have d20 : pin "ViewModels" path = false := pin_false_of_parent (by decide) hm
    have d21 : pin "Views/ListViews" path = false := pin_false_of_parent (by decide) hvw
    have d22 : pin "Views/FormViews" path = false := pin_false_of_parent (by decide) hvw
    have d23 : pin "Views/RowViews" path = false := pin_false_of_parent (by decide) hvw
    have d24 : pin "Views/Components" path = false := pin_false_of_parent (by decide) hvw
    have d25 : pin "Views/Dashboard" path = false := pin_false_of_parent (by decide) hvw
    have d26 : pin "Views/Debug" path = false := pin_false_of_parent (by decide) hvw
    have d27 : pin "Views/Analytics" path = false := pin_false_of_parent (by decide) hvw
    have d28 : pin "Views/Health" path = false := pin_false_of_parent (by decide) hvw
    have d29 : pin "Views/LLM" path = false := pin_false_of_parent (by decide) hvw
    have d30 : pin "Views/CSV" path = false := pin_false_of_parent (by decide) hvw
    have d31 : pin "Views/Templates" path = false := pin_false_of_parent (by decide) hvw
    unfold determine_layer
    rw [if_neg (bne_true d1), if_neg (bne_true d2), if_neg (bne_true d3), if_neg (bne_true d4),
      if_neg (bne_true d5), if_neg (bne_true d6), if_neg (bne_true hdb), if_neg (bne_true d7),
      if_neg (bne_true hrep), if_neg (bne_true d8), if_neg (bne_true hco), if_neg (bne_true d9),
      if_neg (bne_true d10), if_neg (bne_true d11), if_neg (bne_true d12),
      if_neg (bne_true d13), if_neg (bne_true d14), if_neg (bne_true d15),
      if_neg (bne_true d16), if_neg (bne_true hsv), if_neg (bne_true d17),
      if_neg (bne_true d18), if_neg (bne_true d19), if_neg (bne_true d20),
      if_neg (bne_true d21), if_neg (bne_true d22), if_neg (bne_true d23),
      if_neg (bne_true d24), if_neg (bne_true d25), if_neg (bne_true d26),
      if_neg (bne_true d27), if_neg (bne_true d28), if_neg (bne_true d29),
      if_neg (bne_true d30), if_neg (bne_true d31)]

/-- Concrete grounding for the amended C7: the sub-category labels are
produced on ordinary source paths, and a path matching no predicate is
`Unknown`. -/
theorem determine_layer_spec_witness :
    determine_layer c7_rc_path = "Repository-Core" ∧
    determine_layer c7_cf_path = "Coordinator-FormData" ∧
    determine_layer c7_vmf_path = "ViewModel-Form" ∧
    determine_layer c7_unknown_path = "Unknown" ∧
    determine_layer c7_rc_path ≠ "Repository" :=
  ⟨(determine_layer_spec c7_rc_path).2.2.2.1 (by decide) (by decide) (by decide)
      (by decide) (by decide) (by decide) (by decide) (by decide),
   (determine_layer_spec c7_cf_path).2.2.2.2.1 (by decide) (by decide) (by decide)
      (by decide) (by decide) (by decide) (by decide) (by decide) (by decide),
   (determine_layer_spec c7_vmf_path).2.2.2.2.2.1 (by decide) (by decide) (by decide)
      (by decide) (by decide) (by decide) (by decide) (by decide) (by decide)
      (by decide) (by decide),
   (determine_layer_spec c7_unknown_path).2.2.2.2.2.2 (by decide) (by decide)
      (by decide) (by decide) (by decide) (by decide),
   (determine_layer_spec c7_rc_path).1 (by decide)⟩

/-! ### Store helper lemmas -/

lemma find?_path_map (l : List FileRec) (g : FileRec → FileRec)
    (hg : ∀ r, (g r).file_path = r.file_path) (s : String) :
    (l.map g).find? (fun r => r.file_path == s)
      = (l.find? (fun r => r.file_path == s)).map g := by
  induction l with
  | nil => rfl
  | cons a t ih =>
      cases hb : (a.file_path == s) with
      | false =>
          have h2 : ((g a).file_path == s) = false := by rw [hg a]; exact hb
          simp only [List.map_cons, List.find?, h2, hb, ih]
      | true =>
          have h2 : ((g a).file_path == s) = true := by rw [hg a]; exact hb
          simp only [List.map_cons, List.find?, h2, hb, Option.map_some']

lemma find?_eq_of_unique (l : List FileRec) (p : FileRec → Bool) (ex : FileRec)
    (hmem : ex ∈ l) (hp : p ex = true) (huniq : ∀ r ∈ l, p r = true → r = ex) :
    l.find? p = some ex := by
  have hs : (l.find? p).isSome := List.find?_isSome.mpr ⟨ex, hmem, hp⟩
  obtain ⟨r, hr⟩ := Option.isSome_iff_exists.mp hs
  rw [hr, huniq r (List.mem_of_find?_eq_some hr) (List.find?_some hr)]

lemma upsert_file_of_none (db : DBState) (fd : FileData) (run : Nat) (now : String)
    (h : get_file_by_path db fd.file_path = none) :
    upsert_file db fd run now
      = ({ db with
            files := db.files ++ [new_file_rec fd db.next_id now]
            history := db.history ++ [created_event fd db.next_id run]
            next_id := db.next_id + 1 },
         db.next_id, "created") := by
  unfold upsert_file
  rw [h]

lemma upsert_file_of_modified (db : DBState) (fd : FileData) (run : Nat) (now : String)
    (ex : FileRec) (h : get_file_by_path db fd.file_path = some ex)
    (hne : ex.file_hash ≠ fd.file_hash) :
    upsert_file db fd run now
      = ({ db with
            files := db.files.map (fun r =>
              if r.id == ex.id then modified_update fd now r else r)
            history := db.history ++ [modified_event fd ex run] },
         ex.id, "modified") := by
  unfold upsert_file
  rw [h]
  dsimp only
  rw [if_pos hne]

lemma upsert_file_of_unchanged (db : DBState) (fd : FileData) (run : Nat) (now : String)
    (ex : FileRec) (h : get_file_by_path db fd.file_path = some ex)
    (heq : ex.file_hash = fd.file_hash) :
    upsert_file db fd run now
      = ({ db with
            files := db.files.map (fun r =>
              if r.id == ex.id then { r with last_scanned := now } else r) },
         ex.id, "unchanged") := by
  unfold upsert_file
  rw [h]
  dsimp only
  rw [if_neg (fun hn => hn heq)]

lemma upsert_file_rescan (db : DBState) (fd : FileData) (r1 : Nat) (t1 : String)
    (r2 : Nat) (t2 : String) :
    (upsert_file (upsert_file db fd r1 t1).1 fd r2 t2).2.2 = "unchanged" ∧
    (upsert_file (upsert_file db fd r1 t1).1 fd r2 t2).1.history
      = (upsert_file db fd r1 t1).1.history := by
  cases hfind : get_file_by_path db fd.file_path with
  | none =>
      rw [upsert_file_of_none db fd r1 t1 hfind]
      have hself : ((new_file_rec fd db.next_id t1).file_path == fd.file_path) = true :=
        beq_self_eq_true fd.file_path
      have hlook : get_file_by_path
          ({ db with
              files := db.files ++ [new_file_rec fd db.next_id t1]
              history := db.history ++ [created_event fd db.next_id r1]
              next_id := db.next_id + 1 } : DBState) fd.file_path
          = some (new_file_rec fd db.next_id t1) := by
        unfold get_file_by_path at hfind ⊢
        rw [List.find?_append, hfind, Option.none_or]
        simp only [List.find?, hself]
      rw [upsert_file_of_unchanged _ fd r2 t2 _ hlook rfl]
      exact ⟨rfl, rfl⟩
  | some ex =>
      by_cases hne : ex.file_hash ≠ fd.file_hash
      · rw [upsert_file_of_modified db fd r1 t1 ex hfind hne]
        have hlook : get_file_by_path
            ({ db with
                files := db.files.map (fun r =>
                  if r.id == ex.id then modified_update fd t1 r else r)
                history := db.history ++ [modified_event fd ex r1] } : DBState) fd.file_path
            = some (modified_update fd t1 ex) := by
          unfold get_file_by_path at hfind ⊢
          rw [find?_path_map _ _
            (fun r => by by_cases h : r.id == ex.id <;> simp [h, modified_update]) _,
            hfind]
          simp
        rw [upsert_file_of_unchanged _ fd r2 t2 _ hlook rfl]
        exact ⟨rfl, rfl⟩
      · have heq : ex.file_hash = fd.file_hash := not_not.mp hne
        rw [upsert_file_of_unchanged db fd r1 t1 ex hfind heq]
        have hlook : get_file_by_path
            ({ db with
                files := db.files.map (fun r =>
                  if r.id == ex.id then { r with last_scanned := t1 } else r) } : DBState)
            fd.file_path
            = some { ex with last_scanned := t1 } := by
          unfold get_file_by_path at hfind ⊢
          rw [find?_path_map _ _
            (fun r => by by_cases h : r.id == ex.id <;> simp [h]) _, hfind]
          simp
        rw [upsert_file_of_unchanged _ fd r2 t2 _ hlook heq]
        exact ⟨rfl, rfl⟩

/-! ### C1: unchanged reconciliation -/

/-- C1: when the path is already stored and the incoming fingerprint
equals the stored `file_hash`, `upsert_file` returns `unchanged`,
appends no history row, and only touches the `last_scanned` column of
the row with the matched id — every other column of every row is kept;
moreover rescanning the identical metadata in any later run is always
`unchanged` and writes no history event. -/
theorem upsert_file_unchanged_spec (db : DBState) (fd : FileData) (run : Nat)
    (now : String) (ex : FileRec)
    (hex : get_file_by_path db fd.file_path = some ex)
    (hh : ex.file_hash = fd.file_hash) :
    (upsert_file db fd run now).2.2 = "unchanged" ∧
    (upsert_file db fd run now).1.history = db.history ∧
    (upsert_file db fd run now).1.violations = db.violations ∧
    (upsert_file db fd run now).1.files
      = db.files.map (fun r =>
          if r.id == ex.id then { r with last_scanned := now } else r) ∧
    (∀ r ∈ db.files, ∃ r' ∈ (upsert_file db fd run now).1.files,
        r'.id = r.id ∧ r'.layer = r.layer ∧ r'.domain_entity = r.domain_entity ∧
        r'.complexity = r.complexity ∧ r'.line_count = r.line_count ∧
        r'.file_hash = r.file_hash ∧ r'.is_deleted = r.is_deleted ∧
        r'.deleted_at = r.deleted_at ∧ r'.first_seen = r.first_seen) ∧
    (∀ (db₀ : DBState) (fd₀ : FileData) (r1 : Nat) (t1 : String) (r2 : Nat) (t2 : String),
        (upsert_file (upsert_file db₀ fd₀ r1 t1).1 fd₀ r2 t2).2.2 = "unchanged" ∧
        (upsert_file (upsert_file db₀ fd₀ r1 t1).1 fd₀ r2 t2).1.history
          = (upsert_file db₀ fd₀ r1 t1).1.history) := by
  rw [upsert_file_of_unchanged db fd run now ex hex hh]
  refine ⟨rfl, rfl, rfl, rfl, ?_, fun db₀ fd₀ r1 t1 r2 t2 => upsert_file_rescan db₀ fd₀ r1 t1 r2 t2⟩
  intro r hr
  refine ⟨if r.id == ex.id then { r with last_scanned := now } else r,
    List.mem_map_of_mem _ hr, ?_⟩
  by_cases h : (r.id == ex.id) <;> simp [h]

/-- Concrete grounding for C1: rescanning a stored record with the same
fingerprint is `unchanged` and leaves the history empty. -/
theorem upsert_file_unchanged_witness :
    get_file_by_path c1_db (sample_data "A.swift" "h1").file_path
      = some (sample_rec 1 "A.swift" "h1" false) ∧
    (upsert_file c1_db (sample_data "A.swift" "h1") 2 "t2").2.2 = "unchanged" ∧
    (upsert_file c1_db (sample_data "A.swift" "h1") 2 "t2").1.history = c1_db.history :=
  ⟨by decide,
   (upsert_file_unchanged_spec c1_db (sample_data "A.swift" "h1") 2 "t2"
      (sample_rec 1 "A.swift" "h1" false) (by decide) rfl).1,
   (upsert_file_unchanged_spec c1_db (sample_data "A.swift" "h1") 2 "t2"
      (sample_rec 1 "A.swift" "h1" false) (by decide) rfl).2.1⟩

/-! ### C5: reappearance of a soft-deleted path -/

/-- C5: the path lookup ignores the soft-deletion flag, so a
soft-deleted record is still matched; `upsert_file` therefore takes the
modified or unchanged branch, and neither branch touches `is_deleted`
or `deleted_at` (or `id` or `file_path`), so the record stays flagged
deleted. -/
theorem deleted_record_reappearance (db : DBState) (fd : FileData) (run : Nat)
    (now : String) (ex : FileRec)
    (hmem : ex ∈ db.files)
    (hdel : ex.is_deleted = true)
    (hpath : ex.file_path = fd.file_path)
    (huniq : ∀ r ∈ db.files, r.file_path = fd.file_path → r = ex) :
    get_file_by_path db fd.file_path = some ex ∧
    ((upsert_file db fd run now).2.2 = "modified" ∨
      (upsert_file db fd run now).2.2 = "unchanged") ∧
    (∃ g : FileRec → FileRec,
      (upsert_file db fd run now).1.files = db.files.map g ∧
      ∀ r, (g r).id = r.id ∧ (g r).file_path = r.file_path ∧
        (g r).is_deleted = r.is_deleted ∧ (g r).deleted_at = r.deleted_at) ∧
    (∃ r' ∈ (upsert_file db fd run now).1.files,
      r'.id = ex.id ∧ r'.file_path = ex.file_path ∧ r'.is_deleted = true ∧
      r'.deleted_at = ex.deleted_at) := by
  have hex : get_file_by_path db fd.file_path = some ex := by
    unfold get_file_by_path
    exact find?_eq_of_unique db.files _ ex hmem (by simp [hpath])
      (fun r hr hp => huniq r hr (by simpa using hp))
  refine ⟨hex, ?_, ?_, ?_⟩
  · by_cases hne : ex.file_hash ≠ fd.file_hash
    · rw [upsert_file_of_modified db fd run now ex hex hne]
      exact Or.inl rfl
    · rw [upsert_file_of_unchanged db fd run now ex hex (not_not.mp hne)]
      exact Or.inr rfl
  · by_cases hne : ex.file_hash ≠ fd.file_hash
    · rw [upsert_file_of_modified db fd run now ex hex hne]
      refine ⟨fun r => if r.id == ex.id then modified_update fd now r else r, rfl, ?_⟩
      intro r
      by_cases h : (r.id == ex.id) <;> simp [h, modified_update]
    · rw [upsert_file_of_unchanged db fd run now ex hex (not_not.mp hne)]
      refine ⟨fun r => if r.id == ex.id then { r with last_scanned := now } else r, rfl, ?_⟩
      intro r
      by_cases h : (r.id == ex.id) <;> simp [h]
  · by_cases hne : ex.file_hash ≠ fd.file_hash
    · rw [upsert_file_of_modified db fd run now ex hex hne]
      refine ⟨if ex.id == ex.id then modified_update fd now ex else ex,
        List.mem_map_of_mem _ hmem, ?_⟩
      simp [modified_update, hdel]
    · rw [upsert_file_of_unchanged db fd run now ex hex (not_not.mp hne)]
      refine ⟨if ex.id == ex.id then { ex with last_scanned := now } else ex,
        List.mem_map_of_mem _ hmem, ?_⟩
      simp [hdel]

/-- Concrete grounding for C5: a soft-deleted record whose path
reappears with new content is reconciled as `modified` and stays
flagged deleted. -/
theorem deleted_record_reappearance_witness :
    (sample_rec 2 "B.swift" "hOld" true).is_deleted = true ∧
    ((upsert_file c5_db c5_data 9 "t9").2.2 = "modified" ∨
      (upsert_file c5_db c5_data 9 "t9").2.2 = "unchanged") ∧
    (upsert_file c5_db c5_data 9 "t9").2.2 = "modified" :=
  ⟨by decide,
   (deleted_record_reappearance c5_db c5_data 9 "t9" (sample_rec 2 "B.swift" "hOld" true)
      (by decide) (by decide) rfl (by decide)).2.1,
   by decide⟩

/-! ### C2: deletion finalisation -/

lemma flag_deleted_id (now : String) (r : FileRec) : (flag_deleted now r).id = r.id := rfl

lemma flag_deleted_idem (now : String) (r : FileRec) :
    flag_deleted now (flag_deleted now r) = flag_deleted now r := rfl

lemma mark_deleted_foldl (now : String) (ds l : List FileRec) :
    ds.foldl (fun fs f => fs.map (fun r => if r.id == f.id then flag_deleted now r else r)) l
      = l.map (fun r => if ds.any (fun f => r.id == f.id) then flag_deleted now r else r) := by
  induction ds generalizing l with
  | nil => simp
  | cons f ds ih =>
      rw [List.foldl_cons, ih, List.map_map]
      apply List.map_congr_left
      intro r _
      by_cases h : (r.id == f.id)
      · by_cases h2 : (ds.any (fun f2 => r.id == f2.id)) <;>
          simp [Function.comp, h, h2, List.any_cons, flag_deleted_id, flag_deleted_idem]
      · by_cases h2 : (ds.any (fun f2 => r.id == f2.id)) <;>
          simp [Function.comp, h, h2, List.any_cons]

lemma countP_id_and_one (l : List FileRec) (hids : (l.map FileRec.id).Nodup)
    (r : FileRec) (hr : r ∈ l) (q : FileRec → Bool) (hq : q r = true) :
    l.countP (fun f => f.id == r.id && q f) = 1 := by
  induction l with
  | nil => cases hr
  | cons a t ih =>
      rw [List.map_cons, List.nodup_cons] at hids
      rcases List.mem_cons.mp hr with rfl | hrt
      · have hz : t.countP (fun f => f.id == r.id && q f) = 0 := by
          apply List.countP_eq_zero.mpr
          intro f hf
          simp only [Bool.and_eq_true, beq_iff_eq, not_and]
          intro hid _
          exact absurd (hid ▸ List.mem_map_of_mem FileRec.id hf) hids.1
        rw [List.countP_cons, hz]
        simp [hq]
      · have hne : ¬(a.id == r.id && q a) = true := by
          simp only [Bool.and_eq_true, beq_iff_eq, not_and]
          intro hid _
          exact hids.1 (hid.symm ▸ List.mem_map_of_mem FileRec.id hrt)
        rw [List.countP_cons, if_neg hne, Nat.add_zero]
        exact ih hids.2 hrt

lemma countP_id_and_zero (l : List FileRec) (hids : (l.map FileRec.id).Nodup)
    (r : FileRec) (hr : r ∈ l) (q : FileRec → Bool) (hq : q r = false) :
    l.countP (fun f => f.id == r.id && q f) = 0 := by
  apply List.countP_eq_zero.mpr
  intro f hf
  simp only [Bool.and_eq_true, beq_iff_eq, not_and]
  intro hid hqf
  have : f = r := List.inj_on_of_nodup_map hids hf hr hid
  rw [this, hq] at hqf
  cases hqf

/-- C2: after `mark_deleted_files`, every previously non-deleted record
whose path was not scanned is flagged deleted with a deletion timestamp
and gets exactly one new `deleted` history event attributed to the run;
records that were scanned or already soft-deleted are untouched and get
no event; the returned count is the number of newly deleted records. -/
theorem mark_deleted_files_spec (db : DBState) (scanned : List String) (run : Nat)
    (now : String) (hids : (db.files.map FileRec.id).Nodup) :
    (mark_deleted_files db scanned run now).1.files
      = db.files.map (fun r =>
          if !(scanned.contains r.file_path) && !r.is_deleted
          then flag_deleted now r else r) ∧
    (mark_deleted_files db scanned run now).1.history
      = db.history
        ++ (db.files.filter (fun r => !(scanned.contains r.file_path) && !r.is_deleted)).map
            (fun f => deleted_event f run) ∧
    (mark_deleted_files db scanned run now).2
      = (db.files.filter (fun r => !(scanned.contains r.file_path) && !r.is_deleted)).length ∧
    (∀ r ∈ db.files, (!(scanned.contains r.file_path) && !r.is_deleted) = true →
        flag_deleted now r ∈ (mark_deleted_files db scanned run now).1.files ∧
        ((mark_deleted_files db scanned run now).1.history.drop db.history.length).countP
            (fun e => e.file_id == r.id && e.change_type == "deleted"
              && e.scan_run_id == run) = 1) ∧
    (∀ r ∈ db.files, (!(scanned.contains r.file_path) && !r.is_deleted) = false →
        r ∈ (mark_deleted_files db scanned run now).1.files ∧
        ((mark_deleted_files db scanned run now).1.history.drop db.history.length).countP
            (fun e => e.file_id == r.id) = 0) := by
  have hfold : (mark_deleted_files db scanned run now).1.files
      = db.files.map (fun r =>
          if (db.files.filter (fun x => !(scanned.contains x.file_path) && !x.is_deleted)).any
              (fun f => r.id == f.id)
          then flag_deleted now r else r) :=
    mark_deleted_foldl now _ db.files
  have hany : ∀ r ∈ db.files,
      ((db.files.filter (fun x => !(scanned.contains x.file_path) && !x.is_deleted)).any
        (fun f => r.id == f.id))
      = (!(scanned.contains r.file_path) && !r.is_deleted) := by
    intro r hr
    cases hp : (!(scanned.contains r.file_path) && !r.is_deleted) with
    | true =>
        apply List.any_eq_true.mpr
        exact ⟨r, List.mem_filter.mpr ⟨hr, hp⟩, beq_self_eq_true r.id⟩
    | false =>
        cases ha : (db.files.filter
            (fun x => !(scanned.contains x.file_path) && !x.is_deleted)).any
            (fun f => r.id == f.id) with
        | false => rfl
        | true =>
            obtain ⟨f, hf, hbeq⟩ := List.any_eq_true.mp ha
            have hfm := List.mem_filter.mp hf
            have hfr : f = r :=
              List.inj_on_of_nodup_map hids hfm.1 hr (beq_iff_eq.mp hbeq).symm
            rw [hfr] at hfm
            exact absurd hfm.2 (by rw [hp]; decide)
  have hfiles : (mark_deleted_files db scanned run now).1.files
      = db.files.map (fun r =>
          if !(scanned.contains r.file_path) && !r.is_deleted
          then flag_deleted now r else r) := by
    rw [hfold]
    apply List.map_congr_left
    intro r hr
    rw [hany r hr]
  have hhist : (mark_deleted_files db scanned run now).1.history
      = db.history
        ++ (db.files.filter (fun r => !(scanned.contains r.file_path) && !r.is_deleted)).map
            (fun f => deleted_event f run) := rfl
  have hdrop : ((mark_deleted_files db scanned run now).1.history.drop db.history.length)
      = (db.files.filter (fun r => !(scanned.contains r.file_path) && !r.is_deleted)).map
          (fun f => deleted_event f run) := by
    rw [hhist, List.drop_left]
  refine ⟨hfiles, hhist, rfl, ?_, ?_⟩
  · intro r hr hp
    constructor
    · rw [hfiles]
      refine List.mem_map.mpr ⟨r, hr, ?_⟩
      show (if !(scanned.contains r.file_path) && !r.is_deleted
            then flag_deleted now r else r) = flag_deleted now r
      rw [if_pos hp]
    · rw [hdrop, List.countP_map]
      have hcg : (db.files.filter
            (fun r => !(scanned.contains r.file_path) && !r.is_deleted)).countP
            ((fun e => e.file_id == r.id && e.change_type == "deleted"
              && e.scan_run_id == run) ∘ (fun f => deleted_event f run))
          = (db.files.filter
              (fun r => !(scanned.contains r.file_path) && !r.is_deleted)).countP
              (fun f => f.id == r.id) := by
        apply List.countP_congr
        intro f _
        simp [deleted_event, Function.comp]
      rw [hcg, List.countP_filter]
      exact countP_id_and_one db.files hids r hr _ hp
  · intro r hr hp
    constructor
    · rw [hfiles]
      refine List.mem_map.mpr ⟨r, hr, ?_⟩
      show (if !(scanned.contains r.file_path) && !r.is_deleted
            then flag_deleted now r else r) = r
      rw [if_neg (by rw [hp]; exact Bool.false_ne_true)]
    · rw [hdrop, List.countP_map]
      have hcg : (db.files.filter
            (fun r => !(scanned.contains r.file_path) && !r.is_deleted)).countP
            ((fun e => e.file_id == r.id) ∘ (fun f => deleted_event f run))
          = (db.files.filter
              (fun r => !(scanned.contains r.file_path) && !r.is_deleted)).countP
              (fun f => f.id == r.id) := by
        apply List.countP_congr
        intro f _
        simp [deleted_event, Function.comp]
      rw [hcg, List.countP_filter]
      exact countP_id_and_zero db.files hids r hr _ hp

/-- Concrete grounding for C2: of three stored records — one rescanned,
one missing from the scan, one already soft-deleted — exactly the
missing one is newly deleted, and the returned count is 1. -/
theorem mark_deleted_files_witness :
    (c2_db.files.map FileRec.id).Nodup ∧
    (mark_deleted_files c2_db ["A.swift"] 7 "t9").2 = 1 ∧
    flag_deleted "t9" (sample_rec 2 "B.swift" "hB" false)
      ∈ (mark_deleted_files c2_db ["A.swift"] 7 "t9").1.files ∧
    sample_rec 3 "C.swift" "hC" true
      ∈ (mark_deleted_files c2_db ["A.swift"] 7 "t9").1.files :=
  ⟨by decide,
   ((mark_deleted_files_spec c2_db ["A.swift"] 7 "t9" (by decide)).2.2.1).trans (by decide),
   ((mark_deleted_files_spec c2_db ["A.swift"] 7 "t9" (by decide)).2.2.2.1
      (sample_rec 2 "B.swift" "hB" false) (by decide) (by decide)).1,
   ((mark_deleted_files_spec c2_db ["A.swift"] 7 "t9" (by decide)).2.2.2.2
      (sample_rec 3 "C.swift" "hC" true) (by decide) (by decide)).1⟩

/-! ### Violation engine lemmas -/

lemma save_violation_present_self (tbl : List ViolationRow) (d : Draft) :
    pair_present (save_violation tbl d) d.file_id d.violation_type = true := by
  unfold save_violation
  by_cases hg : pair_present tbl d.file_id d.violation_type
  · simp [hg]
  · simp only [hg, if_false, Bool.false_eq_true]
    unfold pair_present at hg ⊢
    rw [List.any_append]
    simp [draft_to_row]

lemma save_violation_mono (tbl : List ViolationRow) (d : Draft) (i : Nat) (t : String)
    (h : pair_present tbl i t = true) :
    pair_present (save_violation tbl d) i t = true := by
  unfold save_violation
  by_cases hg : pair_present tbl d.file_id d.violation_type
  · simpa [hg]
  · simp only [hg, if_false, Bool.false_eq_true]
    unfold pair_present at h ⊢
    rw [List.any_append, h, Bool.true_or]

lemma foldl_save_mono (ds : List Draft) (tbl : List ViolationRow) (i : Nat) (t : String)
    (h : pair_present tbl i t = true) :
    pair_present (ds.foldl save_violation tbl) i t = true := by
  induction ds generalizing tbl with
  | nil => exact h
  | cons d ds ih => exact ih _ (save_violation_mono tbl d i t h)

lemma foldl_save_present_of_mem (ds : List Draft) (tbl : List ViolationRow) (d : Draft)
    (hd : d ∈ ds) :
    pair_present (ds.foldl save_violation tbl) d.file_id d.violation_type = true := by
  induction ds generalizing tbl with
  | nil => cases hd
  | cons a t ih =>
      rcases List.mem_cons.mp hd with rfl | hdt
      · exact foldl_save_mono t _ _ _ (save_violation_present_self tbl d)
      · exact ih _ hdt

lemma save_violation_noop (tbl : List ViolationRow) (d : Draft)
    (h : pair_present tbl d.file_id d.violation_type = true) :
    save_violation tbl d = tbl := by
  unfold save_violation
  rw [if_pos h]

lemma foldl_save_noop (ds : List Draft) (tbl : List ViolationRow)
    (h : ∀ d ∈ ds, pair_present tbl d.file_id d.violation_type = true) :
    ds.foldl save_violation tbl = tbl := by
  induction ds with
  | nil => rfl
  | cons a t ih =>
      rw [List.foldl_cons, save_violation_noop tbl a (h a (List.mem_cons_self a t))]
      exact ih (fun d hd => h d (List.mem_cons_of_mem a hd))

lemma save_violation_amoo (tbl : List ViolationRow) (d : Draft)
    (h : at_most_one_open tbl) : at_most_one_open (save_violation tbl d) := by
  unfold save_violation
  by_cases hg : pair_present tbl d.file_id d.violation_type
  · simpa [hg]
  · simp only [hg, if_false, Bool.false_eq_true]
    unfold at_most_one_open
    rw [List.pairwise_append]
    refine ⟨h, List.pairwise_singleton _ _, ?_⟩
    intro a ha b hb
    rw [List.mem_singleton] at hb
    subst hb
    intro _ _ hpair
    unfold pair_present at hg
    apply hg
    apply List.any_eq_true.mpr
    refine ⟨a, ha, ?_⟩
    have h1 : a.file_id = d.file_id := by simpa [draft_to_row] using hpair.1
    have h2 : a.violation_type = d.violation_type := by simpa [draft_to_row] using hpair.2
    simp [h1, h2]

lemma foldl_save_amoo (ds : List Draft) (tbl : List ViolationRow)
    (h : at_most_one_open tbl) : at_most_one_open (ds.foldl save_violation tbl) := by
  induction ds generalizing tbl with
  | nil => exact h
  | cons a t ih => exact ih _ (save_violation_amoo tbl a h)

/-! ### C3: rule idempotence -/

/-- C3 (spec-modelled dedup constraint): `check_all_violations` never
touches the `files` snapshot, a second run against the unchanged
snapshot leaves the `violations` table exactly as the first run left
it, and the at-most-one-open-violation-per-(file id, kind) invariant is
preserved — re-detection is a no-op, not a duplicate insert. -/
theorem check_all_violations_idempotent (db : DBState) :
    (check_all_violations (check_all_violations db).1).1.violations
      = (check_all_violations db).1.violations ∧
    (check_all_violations db).1.files = db.files ∧
    (at_most_one_open db.violations →
      at_most_one_open (check_all_violations db).1.violations) := by
  refine ⟨?_, rfl, fun h => foldl_save_amoo _ _ h⟩
  show (all_drafts db.files).foldl save_violation
      ((all_drafts db.files).foldl save_violation db.violations)
    = (all_drafts db.files).foldl save_violation db.violations
  apply foldl_save_noop
  intro d hd
  exact foldl_save_present_of_mem _ _ _ hd

/-- Concrete grounding for C3: on a snapshot with one coordinator
missing a Sendable marker, the first check inserts one open violation
and the second check leaves the table unchanged. -/
theorem check_all_violations_witness :
    at_most_one_open c3_db.violations ∧
    at_most_one_open (check_all_violations c3_db).1.violations ∧
    (check_all_violations (check_all_violations c3_db).1).1.violations
      = (check_all_violations c3_db).1.violations ∧
    (check_all_violations c3_db).1.violations.length = 1 :=
  ⟨by unfold at_most_one_open; decide,
   (check_all_violations_idempotent c3_db).2.2 (by unfold at_most_one_open; decide),
   (check_all_violations_idempotent c3_db).1,
   by decide⟩

/-! ### C8: missing-Sendable rule -/

lemma pair_present_iff (tbl : List ViolationRow) (i : Nat) (t : String) :
    pair_present tbl i t = true ↔ 0 < pair_count tbl i t := by
  unfold pair_present pair_count
  rw [List.any_eq_true, List.countP_pos_iff]

lemma save_pair_count_stable (tbl : List ViolationRow) (d : Draft) (i : Nat) (t : String)
    (h : 0 < pair_count tbl i t) :
    pair_count (save_violation tbl d) i t = pair_count tbl i t := by
  unfold save_violation
  by_cases hg : pair_present tbl d.file_id d.violation_type
  · rw [if_pos hg]
  · rw [if_neg hg]
    unfold pair_count
    rw [List.countP_append]
    cases hd : (d.file_id == i && d.violation_type == t) with
    | true =>
        exfalso
        apply hg
        obtain ⟨h1, h2⟩ : d.file_id = i ∧ d.violation_type = t := by simpa using hd
        rw [h1, h2]
        exact (pair_present_iff tbl i t).mpr h
    | false =>
        have hz : List.countP (fun w => w.file_id == i && w.violation_type == t)
            [draft_to_row d] = 0 := by
          simp [List.countP_cons, draft_to_row]
          simpa using hd
        rw [hz, Nat.add_zero]

lemma foldl_save_count_stable (ds : List Draft) (tbl : List ViolationRow)
    (i : Nat) (t : String) (h : 0 < pair_count tbl i t) :
    pair_count (ds.foldl save_violation tbl) i t = pair_count tbl i t := by
  induction ds generalizing tbl with
  | nil => rfl
  | cons d ds ih =>
      rw [List.foldl_cons,
        ih _ (by rw [save_pair_count_stable tbl d i t h]; exact h),
        save_pair_count_stable tbl d i t h]

lemma save_pair_count_zero (tbl : List ViolationRow) (d : Draft) (i : Nat) (t : String)
    (h : pair_count tbl i t = 0)
    (hd : (d.file_id == i && d.violation_type == t) = false) :
    pair_count (save_violation tbl d) i t = 0 := by
  unfold save_violation
  by_cases hg : pair_present tbl d.file_id d.violation_type
  · rw [if_pos hg]; exact h
  · rw [if_neg hg]
    unfold pair_count at h ⊢
    rw [List.countP_append, h]
    simp [List.countP_cons, draft_to_row]
    simpa using hd

lemma save_pair_count_hit (tbl : List ViolationRow) (d : Draft) (i : Nat) (t : String)
    (h : pair_count tbl i t = 0)
    (hd : (d.file_id == i && d.violation_type == t) = true) :
    pair_count (save_violation tbl d) i t = 1 := by
  obtain ⟨h1, h2⟩ : d.file_id = i ∧ d.violation_type = t := by simpa using hd
  have hg : pair_present tbl d.file_id d.violation_type = false := by
    rw [h1, h2]
    cases hp : pair_present tbl i t with
    | false => rfl
    | true =>
        have := (pair_present_iff tbl i t).mp hp
        omega
  unfold save_violation
  rw [if_neg (by rw [hg]; exact Bool.false_ne_true)]
  unfold pair_count at h ⊢
  rw [List.countP_append, h]
  simp [List.countP_cons, draft_to_row, hd]

lemma foldl_save_count (ds : List Draft) (tbl : List ViolationRow) (i : Nat) (t : String)
    (h : pair_count tbl i t = 0) :
    pair_count (ds.foldl save_violation tbl) i t
      = (if ds.any (fun d => d.file_id == i && d.violation_type == t) then 1 else 0) := by
  induction ds generalizing tbl with
  | nil => simpa using h
  | cons d ds ih =>
      rw [List.foldl_cons]
      cases hd : (d.file_id == i && d.violation_type == t) with
      | false =>
          rw [ih _ (save_pair_count_zero tbl d i t h hd)]
          simp [List.any_cons, hd]
      | true =>
          have h1 := save_pair_count_hit tbl d i t h hd
          rw [foldl_save_count_stable ds _ i t (by rw [h1]; exact Nat.zero_lt_one), h1]
          simp [List.any_cons, hd]

lemma mem_foldl_save (ds : List Draft) (tbl : List ViolationRow) (w : ViolationRow)
    (hw : w ∈ ds.foldl save_violation tbl) :
    w ∈ tbl ∨ ∃ d ∈ ds, w = draft_to_row d := by
  induction ds generalizing tbl with
  | nil => exact Or.inl hw
  | cons d ds ih =>
      rw [List.foldl_cons] at hw
      rcases ih _ hw with h | ⟨d', hd', rfl⟩
      · unfold save_violation at h
        by_cases hg : pair_present tbl d.file_id d.violation_type
        · rw [if_pos hg] at h
          exact Or.inl h
        · rw [if_neg hg] at h
          rcases List.mem_append.mp h with h2 | h2
          · exact Or.inl h2
          · rw [List.mem_singleton] at h2
            exact Or.inr ⟨d, List.mem_cons_self d ds, h2⟩
      · exact Or.inr ⟨d', List.mem_cons_of_mem d hd', rfl⟩

/-- C8 counterexample: the claim reads "whose concurrency label does
not contain 'Sendable'" literally; the label `"SENDABLE"` does not
contain `"Sendable"`, yet SQLite's default ASCII case-insensitive
`NOT LIKE '%Sendable%'` does not select that row, so a check run emits
no `missing_sendable` violation for it where the claim requires one. -/
theorem check_missing_sendable_counterexample :
    pin "Sendable" "SENDABLE" = false ∧
    like_contains "Sendable" "SENDABLE" = true ∧
    pair_count (check_all_violations c8_cx_db).1.violations 1 "missing_sendable" = 0 :=
  ⟨by decide, by decide, by decide⟩

/-- C8 (amended): a non-deleted record in one of the four guarded
layers whose concurrency label does not contain `Sendable` up to ASCII
case (SQLite's default `LIKE` folding) gets exactly one open
medium-severity `missing_sendable` violation from a check run (the
violations table initially holding no such pair for it); a record whose
label does contain `Sendable` up to ASCII case gets none. -/
theorem check_missing_sendable_spec (db : DBState) (r : FileRec) (c : String)
    (hids : (db.files.map FileRec.id).Nodup)
    (hmem : r ∈ db.files)
    (hdel : r.is_deleted = false)
    (hlayer : r.layer = "Coordinator" ∨ r.layer = "Repository"
      ∨ r.layer = "Service-Progress" ∨ r.layer = "Service-Validation")
    (hconc : r.concurrency = some c)
    (hinit : pair_count db.violations r.id "missing_sendable" = 0) :
    (like_contains "Sendable" c = false →
      pair_count (check_all_violations db).1.violations r.id "missing_sendable" = 1 ∧
      (∀ w ∈ (check_all_violations db).1.violations,
        (w.file_id == r.id && w.violation_type == "missing_sendable") = true →
        w.severity = "medium" ∧ w.status = "open")) ∧
    (like_contains "Sendable" c = true →
      pair_count (check_all_violations db).1.violations r.id "missing_sendable" = 0) := by
  have hvio : (check_all_violations db).1.violations
      = (all_drafts db.files).foldl save_violation db.violations := rfl
  have hl : (r.layer == "Coordinator" || r.layer == "Repository"
      || r.layer == "Service-Progress" || r.layer == "Service-Validation") = true := by
    rcases hlayer with h | h | h | h <;> simp [h]
  constructor
  · intro hns
    have hq : ((r.layer == "Coordinator" || r.layer == "Repository"
        || r.layer == "Service-Progress" || r.layer == "Service-Validation")
        && r.is_deleted == false && not_like r.concurrency "Sendable") = true := by
      simp [hl, hdel, not_like, hconc, hns]
    constructor
    · rw [hvio, foldl_save_count _ _ _ _ hinit]
      have hany : (all_drafts db.files).any
          (fun d => d.file_id == r.id && d.violation_type == "missing_sendable") = true := by
        apply List.any_eq_true.mpr
        refine ⟨sendable_draft r, ?_, by simp [sendable_draft]⟩
        unfold all_drafts
        refine List.mem_append.mpr (Or.inl (List.mem_append.mpr (Or.inr ?_)))
        unfold check_missing_sendable
        exact List.mem_map_of_mem sendable_draft (List.mem_filter.mpr ⟨hmem, hq⟩)
      rw [if_pos hany]
    · intro w hw hwp
      rw [hvio] at hw
      rcases mem_foldl_save _ _ _ hw with hwt | ⟨d, hd, rfl⟩
      · exact absurd hwp (List.countP_eq_zero.mp hinit w hwt)
      · unfold all_drafts at hd
        rcases List.mem_append.mp hd with hd1 | hd4
        · rcases List.mem_append.mp hd1 with hd2 | hd3
          · rcases List.mem_append.mp hd2 with hdA | hdB
            · exfalso
              obtain ⟨x, _, rfl⟩ := List.mem_map.mp hdA
              simp only [draft_to_row, baserepo_draft, Bool.and_eq_true, beq_iff_eq] at hwp
              exact absurd hwp.2 (by decide)
            · exact absurd hdB (List.not_mem_nil d)
          · obtain ⟨x, _, rfl⟩ := List.mem_map.mp hd3
            exact ⟨rfl, rfl⟩
        · exfalso
          obtain ⟨x, _, rfl⟩ := List.mem_map.mp hd4
          simp only [draft_to_row, mainactor_draft, Bool.and_eq_true, beq_iff_eq] at hwp
          exact absurd hwp.2 (by decide)
  · intro hs
    rw [hvio, foldl_save_count _ _ _ _ hinit]
    have hany : (all_drafts db.files).any
        (fun d => d.file_id == r.id && d.violation_type == "missing_sendable") = false := by
      cases hb : (all_drafts db.files).any
          (fun d => d.file_id == r.id && d.violation_type == "missing_sendable") with
      | false => rfl
      | true =>
          exfalso
          obtain ⟨d, hd, hdp⟩ := List.any_eq_true.mp hb
          unfold all_drafts at hd
          rcases List.mem_append.mp hd with hd1 | hd4
          · rcases List.mem_append.mp hd1 with hd2 | hd3
            · rcases List.mem_append.mp hd2 with hdA | hdB
              · obtain ⟨x, _, rfl⟩ := List.mem_map.mp hdA
                simp only [baserepo_draft, Bool.and_eq_true, beq_iff_eq] at hdp
                exact absurd hdp.2 (by decide)
              · exact absurd hdB (List.not_mem_nil d)
            · obtain ⟨x, hx, rfl⟩ := List.mem_map.mp hd3
              simp only [sendable_draft, Bool.and_eq_true, beq_iff_eq] at hdp
              have hxf := List.mem_filter.mp hx
              have hxr : x = r :=
                List.inj_on_of_nodup_map hids hxf.1 hmem hdp.1
              have hqx := hxf.2
              rw [hxr] at hqx
              simp [not_like, hconc, hs] at hqx
          · obtain ⟨x, _, rfl⟩ := List.mem_map.mp hd4
            simp only [mainactor_draft, Bool.and_eq_true, beq_iff_eq] at hdp
            exact absurd hdp.2 (by decide)
    rw [if_neg (by rw [hany]; exact Bool.false_ne_true)]

/-- Concrete grounding for C8: the spec's coordinator B (200 non-blank
lines, concurrency label `"None"`) yields exactly one open
`missing_sendable` violation. -/
theorem check_missing_sendable_witness :
    like_contains "Sendable" "None" = false ∧
    pair_count (check_all_violations c8_db).1.violations 1 "missing_sendable" = 1 :=
  ⟨by decide,
   ((check_missing_sendable_spec c8_db (sample_rec 1 "B.swift" "hB" false) "None"
      (by decide) (by decide) rfl (Or.inl rfl) rfl (by decide)).1 (by decide)).1⟩

/-! ### C4: per-file failure isolation and the error counter -/

lemma scan_foldl_acc (l : List (Except String FileData)) (acc : List FileData) :
    l.foldl scan_collect_step acc = acc ++ scan_all_files l := by
  induction l generalizing acc with
  | nil => simp [scan_all_files]
  | cons a t ih =>
      rw [List.foldl_cons, ih]
      have h2 : scan_all_files (a :: t) = scan_collect_step [] a ++ scan_all_files t := by
        unfold scan_all_files
        rw [List.foldl_cons, ih]
        rfl
      rw [h2]
      cases a with
      | ok m => simp [scan_collect_step]
      | error e => simp [scan_collect_step]

lemma scan_all_files_skip (xs ys : List (Except String FileData)) (e : String) :
    scan_all_files (xs ++ Except.error e :: ys)
      = scan_all_files xs ++ scan_all_files ys := by
  unfold scan_all_files
  rw [List.foldl_append, List.foldl_cons]
  have h1 : scan_collect_step (xs.foldl scan_collect_step []) (Except.error e)
      = xs.foldl scan_collect_step [] := rfl
  rw [h1, scan_foldl_acc]
  rfl

lemma foldl_scan_step_errors (run : Nat) (now : String) (fs : List FileData)
    (acc : DBState × ScanStats × List String) :
    (fs.foldl (scan_step run now) acc).2.1.errors = acc.2.1.errors := by
  induction fs generalizing acc with
  | nil => rfl
  | cons f fs ih =>
      rw [List.foldl_cons, ih]
      rfl

lemma run_scan_errors_zero (db : DBState) (attempts : List (Except String FileData))
    (run : Nat) (now : String) :
    (run_scan db attempts run now).2.errors = 0 := by
  exact foldl_scan_step_errors run now (scan_all_files attempts) (db, ⟨0, 0, 0, 0, 0⟩, [])

/-- C4 (code bug): a failing per-file analysis is skipped and the scan
continues over all remaining files, but the `errors` counter is never
incremented anywhere — `errors_encountered` is always written as 0, so
for a scan with one failed extraction it is 0 rather than 1. -/
theorem scan_errors_never_counted :
    (∀ (db : DBState) (attempts : List (Except String FileData)) (run : Nat) (now : String),
      (complete_scan_run (run_scan db attempts run now).2).errors_encountered = 0) ∧
    (∀ (xs ys : List (Except String FileData)) (e : String),
      scan_all_files (xs ++ Except.error e :: ys)
        = scan_all_files xs ++ scan_all_files ys) ∧
    scan_all_files c4_attempts = [c4_good] ∧
    failed_extractions c4_attempts = 1 ∧
    (run_scan c4_db c4_attempts 5 "t1").2.scanned = 1 ∧
    (complete_scan_run (run_scan c4_db c4_attempts 5 "t1").2).errors_encountered
      ≠ failed_extractions c4_attempts := by
  refine ⟨fun db attempts run now => run_scan_errors_zero db attempts run now,
    fun xs ys e => scan_all_files_skip xs ys e, rfl, rfl, ?_, ?_⟩
  · decide
  · decide
